import Mathlib

set_option linter.unnecessarySimpa false
set_option linter.unusedVariables false

/-!
Verification of the media-janitor scan-state and validation-decision engine.

This file gives a shallow embedding of the core of the repository:
`state.py` (persistent state store), `arr_client.py` (Radarr/Sonarr client:
deletion / replacement-search key discipline), `validation.py` (staged file
integrity validator), `scanner.py` (catalog cache, queue refresh, path
lookup, initial-scan completion), and `janitor.py` (decision orchestrator
and daily rate limiter).  I/O, subprocess and HTTP outcomes are passed in
as explicit environment values; datetime timestamps stored only for
display are dropped (booleans record whether they are set); `float`
durations are modelled as rationals.
-/

namespace MediaJanitor

/-! ## Python dict helpers

Python `dict[str, V]` modelled as an association list in insertion order
with unique keys.  `d[k] = v` keeps the position of an existing key,
`del d[k]` removes it, lookups scan by key. -/

def dictLookup {α : Type} (d : List (String × α)) (k : String) : Option α :=
  (d.find? (fun kv => kv.1 == k)).map (·.2)

def dictContains {α : Type} (d : List (String × α)) (k : String) : Bool :=
  d.any (fun kv => kv.1 == k)

def dictInsert {α : Type} (d : List (String × α)) (k : String) (v : α) :
    List (String × α) :=
  if dictContains d k then
    d.map (fun kv => if kv.1 == k then (k, v) else kv)
  else
    d ++ [(k, v)]

def dictErase {α : Type} (d : List (String × α)) (k : String) :
    List (String × α) :=
  d.filter (fun kv => kv.1 ≠ k)

/-! ## State store (`state.py`, class `StateManager`)

The `_state` dict.  `missing_files` and the on-disk persistence layer
(`_load`/`_save`, which are best-effort and never change in-memory
behaviour) are not involved in any claim and are omitted; timestamps kept
only for display are modelled as booleans ("is set"). -/

structure ScanEntry where
  valid : Bool
  media_type : String
deriving DecidableEq, Repr

/-- One element of the `replaced_files` audit list (timestamp dropped). -/
structure ReplacedEntry where
  path : String
  title : String
  reason : String
  wrong_file : Bool
  media_type : String
deriving DecidableEq, Repr

structure StoreState where
  scanned_files : List (String × ScanEntry)
  replaced_files : List ReplacedEntry
  total_scanned : Nat
  total_invalid : Nat
  total_replaced : Nat
  total_wrong_files : Nat
  movies_scanned_ctr : Nat
  tv_scanned_ctr : Nat
  movies_replaced : Nat
  tv_replaced : Nat
  movies_total : Nat
  tv_total : Nat
  scan_started : Bool
  scan_completed : Bool
deriving DecidableEq, Repr

/-- The fresh state built in `StateManager.__init__` / after `clear()`. -/
def StoreState.empty : StoreState :=
  { scanned_files := [], replaced_files := [], total_scanned := 0
    total_invalid := 0, total_replaced := 0, total_wrong_files := 0
    movies_scanned_ctr := 0, tv_scanned_ctr := 0
    movies_replaced := 0, tv_replaced := 0
    movies_total := 0, tv_total := 0
    scan_started := false, scan_completed := false }

/-- `StateManager.is_scanned`. -/
def is_scanned (s : StoreState) (file_path : String) : Bool :=
  (dictLookup s.scanned_files file_path).isSome

/-- `StateManager.mark_scanned`. -/
def mark_scanned (s : StoreState) (file_path : String) (valid : Bool)
    (media_type : String) : StoreState :=
  { s with
    scanned_files :=
      dictInsert s.scanned_files file_path ⟨valid, media_type⟩
    total_scanned := s.total_scanned + 1
    total_invalid := if valid then s.total_invalid else s.total_invalid + 1
    movies_scanned_ctr :=
      if media_type = "movie" then s.movies_scanned_ctr + 1
      else s.movies_scanned_ctr
    tv_scanned_ctr :=
      if media_type = "movie" then s.tv_scanned_ctr
      else if media_type = "tv" then s.tv_scanned_ctr + 1
      else s.tv_scanned_ctr }

/-- `StateManager.mark_replaced`: drop the scan record, bump counters,
append an audit entry and keep only the last 500 entries. -/
def mark_replaced (s : StoreState) (file_path : String) (wrong_file : Bool)
    (title : String) (reason : String) (media_type : String) : StoreState :=
  let entry : ReplacedEntry :=
    ⟨file_path, title, reason, wrong_file, media_type⟩
  { s with
    scanned_files := dictErase s.scanned_files file_path
    total_replaced := s.total_replaced + 1
    total_invalid := s.total_invalid + 1
    total_wrong_files :=
      if wrong_file then s.total_wrong_files + 1 else s.total_wrong_files
    movies_replaced :=
      if media_type = "movie" then s.movies_replaced + 1 else s.movies_replaced
    tv_replaced :=
      if media_type = "movie" then s.tv_replaced
      else if media_type = "tv" then s.tv_replaced + 1
      else s.tv_replaced
    replaced_files :=
      if (s.replaced_files ++ [entry]).length > 500 then
        (s.replaced_files ++ [entry]).drop
          ((s.replaced_files ++ [entry]).length - 500)
      else
        s.replaced_files ++ [entry] }

/-- `StateManager.mark_scan_started`. -/
def mark_scan_started (s : StoreState) : StoreState :=
  { s with scan_started := true }

/-- `StateManager.mark_scan_completed`. -/
def mark_scan_completed (s : StoreState) : StoreState :=
  { s with scan_completed := true }

/-- `StateManager.get_scanned_paths` (membership test on the key set). -/
def get_scanned_paths (s : StoreState) (p : String) : Bool :=
  dictContains s.scanned_files p

/-- `StateManager.set_library_totals`. -/
def set_library_totals (s : StoreState) (movies_total tv_total : Nat) :
    StoreState :=
  { s with movies_total := movies_total, tv_total := tv_total }

/-- The dict returned by `StateManager.get_stats`. -/
structure Stats where
  total_scanned : Nat
  valid_files : Nat
  invalid_files : Nat
  total_replaced : Nat
  total_wrong_files : Nat
  scan_started : Bool
  scan_completed : Bool
  initial_scan_done : Bool
  movies_scanned : Nat
  movies_total : Nat
  tv_scanned : Nat
  tv_total : Nat
deriving DecidableEq, Repr

/-- `StateManager.get_stats`: per-type scanned counts are the entries of
that type currently in `scanned_files` plus the ever-replaced counter. -/
def get_stats (s : StoreState) : Stats :=
  let movies_in_scanned :=
    (s.scanned_files.filter (fun kv => kv.2.media_type = "movie")).length
  let tv_in_scanned :=
    (s.scanned_files.filter (fun kv => kv.2.media_type = "tv")).length
  { total_scanned := s.scanned_files.length
    valid_files := (s.scanned_files.filter (fun kv => kv.2.valid)).length
    invalid_files := s.total_invalid
    total_replaced := s.total_replaced
    total_wrong_files := s.total_wrong_files
    scan_started := s.scan_started
    scan_completed := s.scan_completed
    initial_scan_done := s.scan_completed
    movies_scanned := movies_in_scanned + s.movies_replaced
    movies_total := s.movies_total
    tv_scanned := tv_in_scanned + s.tv_replaced
    tv_total := s.tv_total }

/-! ## Catalog client (`arr_client.py`)

`ArrType`, `MediaItem`, and the destructive path of `ArrClient`:
`delete_file`, `search_for_replacement`, `_fallback_search`,
`_get_episode_id_by_info`, plus `Janitor._replace_file` which drives them.
HTTP outcomes are environment values (`none` models a raised exception,
which the Python code catches).  Each function also returns the list of
remote calls it issued, so that key-discipline properties can be stated
about which identifier every call carries. -/

inductive ArrType where
  | radarr
  | sonarr
deriving DecidableEq, Repr

structure MediaItem where
  id : Int
  title : String
  file_path : Option String
  file_id : Option Int
  quality : Option String := none
  size_bytes : Option Int := none
  series_id : Option Int := none
  season_number : Option Int := none
  episode_number : Option Int := none
  episode_id : Option Int := none
  arr_type : Option ArrType := none
  arr_instance : Option String := none
  year : Option Int := none
  folder_path : Option String := none
deriving DecidableEq, Repr

/-- Python truthiness of an optional integer (`None` and `0` are falsy). -/
def truthyInt : Option Int → Bool
  | none => false
  | some n => n != 0

/-- Python truthiness of an optional string (`None` and `""` are falsy). -/
def truthyStr : Option String → Bool
  | none => false
  | some s => s != ""

/-- One record of the Sonarr `episode` endpoint (the fields read by
`_get_episode_id_by_info` / `_get_all_episodes`). -/
structure EpisodeRec where
  seasonNumber : Option Int
  episodeNumber : Option Int
  id : Option Int
deriving DecidableEq, Repr

/-- One record of the `release` endpoint (the fields read by
`search_for_replacement`). -/
structure Release where
  rejected : Bool
  indexer : String
  title : String
deriving DecidableEq, Repr

/-- A remote call made by the client, tagged with the identifier it
carries (the release body pushed by `POST release` carries no item key). -/
inductive ApiCall where
  | deleteFile (file_id : Int)
  | getIndexers
  | getReleasesMovie (movie_id : Int)
  | getReleasesEpisode (ep_id : Int)
  | getEpisodes (series_id : Int)
  | postRelease
  | cmdMoviesSearch (movie_id : Int)
  | cmdEpisodeSearch (ep_id : Int)
  | blocklistCall
deriving DecidableEq, Repr

/-- Outcomes of the remote API, one field per endpoint; `none` models a
raised exception. -/
structure ArrEnv where
  indexers : Option (List (String × Int))
  releasesMovie : Int → Option (List Release)
  releasesEpisode : Int → Option (List Release)
  episodes : Int → Option (List EpisodeRec)
  postReleaseOk : Bool
  postCommandOk : Bool
  deleteOk : Int → Bool

/-- `ArrClient._get_episode_id_by_info`: recover an episode id from
series/season/episode coordinates; any failure degrades to `none`. -/
def get_episode_id_by_info (env : ArrEnv)
    (series_id season episode : Option Int) : Option Int × List ApiCall :=
  if truthyInt series_id = false ∨ season = none ∨ episode = none then
    (none, [])
  else
    match env.episodes (series_id.getD 0) with
    | none => (none, [ApiCall.getEpisodes (series_id.getD 0)])
    | some eps =>
      match eps.find? (fun ep =>
          ep.seasonNumber == season && ep.episodeNumber == episode) with
      | none => (none, [ApiCall.getEpisodes (series_id.getD 0)])
      | some ep => (ep.id, [ApiCall.getEpisodes (series_id.getD 0)])

/-- The `episode_id = item.episode_id or _get_episode_id_by_info(...)`
pattern shared by `search_for_replacement` and `_fallback_search`. -/
def resolve_episode_id (env : ArrEnv) (item : MediaItem) :
    Option Int × List ApiCall :=
  if truthyInt item.episode_id then (item.episode_id, [])
  else get_episode_id_by_info env item.series_id item.season_number
    item.episode_number

/-- `indexer_priorities.get(name, 25)` where the dict is built from the
indexer list (later duplicates overwrite earlier ones). -/
def indexerPriority (idxs : List (String × Int)) (name : String) : Int :=
  (((idxs.reverse).find? (fun kv => kv.1 == name)).map (·.2)).getD 25

/-- The keys of `releases_by_indexer` in first-occurrence order. -/
def indexerKeys (rs : List Release) : List String :=
  rs.foldl (fun acc r =>
    if acc.contains r.indexer then acc else acc ++ [r.indexer]) []

/-- `sorted(keys, key=priority)[0]`: the first key attaining the minimal
priority (Python `sorted` is stable). -/
def bestIndexer (idxs : List (String × Int)) (keys : List String) :
    Option String :=
  keys.foldl (fun acc k =>
    match acc with
    | none => some k
    | some b =>
      if indexerPriority idxs k < indexerPriority idxs b then some k else acc)
    none

/-- `ArrClient._fallback_search`: issue the standard search command; for
Sonarr skip the post (and still report success) when no episode id can be
recovered. -/
def fallback_search (ctype : ArrType) (env : ArrEnv) (item : MediaItem) :
    Bool × List ApiCall :=
  match ctype with
  | ArrType.radarr => (env.postCommandOk, [ApiCall.cmdMoviesSearch item.id])
  | ArrType.sonarr =>
    if truthyInt (resolve_episode_id env item).1 then
      (env.postCommandOk,
       (resolve_episode_id env item).2 ++
         [ApiCall.cmdEpisodeSearch ((resolve_episode_id env item).1.getD 0)])
    else
      (true, (resolve_episode_id env item).2)

/-- The tail of `ArrClient.search_for_replacement` once the release list
request has been issued: filter rejected releases, pick the best indexer,
push its first release, falling back to the search command when no
release is usable. -/
def search_with_releases (ctype : ArrType) (env : ArrEnv) (item : MediaItem)
    (idxs : List (String × Int)) (calls : List ApiCall)
    (rel : Option (List Release)) : Bool × List ApiCall :=
  match rel with
  | none => (false, calls)
  | some releases =>
    if releases.isEmpty then
      let f := fallback_search ctype env item
      (f.1, calls ++ f.2)
    else
      let valid_releases := releases.filter (fun r => !r.rejected)
      if valid_releases.isEmpty then
        let f := fallback_search ctype env item
        (f.1, calls ++ f.2)
      else
        match bestIndexer idxs (indexerKeys valid_releases) with
        | none =>
          let f := fallback_search ctype env item
          (f.1, calls ++ f.2)
        | some _best =>
          (env.postReleaseOk, calls ++ [ApiCall.postRelease])

/-- `ArrClient.search_for_replacement`: resolve the search key (`item.id`
for Radarr, the explicit or recovered episode id for Sonarr), list
releases for it and grab from the single best indexer. -/
def search_for_replacement (ctype : ArrType) (env : ArrEnv)
    (item : MediaItem) : Bool × List ApiCall :=
  match env.indexers with
  | none => (false, [ApiCall.getIndexers])
  | some idxs =>
    match ctype with
    | ArrType.radarr =>
      search_with_releases ctype env item idxs
        [ApiCall.getIndexers, ApiCall.getReleasesMovie item.id]
        (env.releasesMovie item.id)
    | ArrType.sonarr =>
      if truthyInt (resolve_episode_id env item).1 then
        search_with_releases ctype env item idxs
          (ApiCall.getIndexers :: (resolve_episode_id env item).2 ++
            [ApiCall.getReleasesEpisode
              ((resolve_episode_id env item).1.getD 0)])
          (env.releasesEpisode ((resolve_episode_id env item).1.getD 0))
      else
        (false, ApiCall.getIndexers :: (resolve_episode_id env item).2)

/-- `ArrClient.delete_file`: DELETE `moviefile/{id}` or
`episodefile/{id}`; either way the call carries exactly the file id. -/
def delete_file (env : ArrEnv) (file_id : Int) : Bool × List ApiCall :=
  (env.deleteOk file_id, [ApiCall.deleteFile file_id])

/-- `Janitor._replace_file`: delete by `file_id` (abort on failure or on a
falsy file id), optionally blocklist, then trigger the replacement
search; a failed search after a successful delete is still reported as
success. -/
def replace_file (ctype : ArrType) (env : ArrEnv)
    (blocklist_bad_releases : Bool) (item : MediaItem) :
    Bool × List ApiCall :=
  if truthyInt item.file_id then
    let fid := item.file_id.getD 0
    let d := delete_file env fid
    if d.1 then
      let bcalls :=
        if blocklist_bad_releases then [ApiCall.blocklistCall] else []
      let s := search_for_replacement ctype env item
      (true, d.2 ++ bcalls ++ s.2)
    else
      (false, d.2)
  else
    (false, [])

/-- The episode id `_get_episode_id_by_info` would recover for this item's
series/season/episode coordinates. -/
def lookupEpisodeId (env : ArrEnv) (item : MediaItem) : Option Int :=
  (get_episode_id_by_info env item.series_id item.season_number
    item.episode_number).1

/-- Key discipline of one remote call: deletions carry the item's
`file_id`; movie searches carry `item.id`; episode searches carry the
explicit `episode_id` or the id recovered by series/season/episode
lookup; other calls carry no item key. -/
def keyDiscipline (ctype : ArrType) (env : ArrEnv) (item : MediaItem) :
    ApiCall → Prop
  | ApiCall.deleteFile k => item.file_id = some k
  | ApiCall.getReleasesMovie k => ctype = ArrType.radarr ∧ k = item.id
  | ApiCall.cmdMoviesSearch k => ctype = ArrType.radarr ∧ k = item.id
  | ApiCall.getReleasesEpisode k =>
      ctype = ArrType.sonarr ∧
        (item.episode_id = some k ∨ lookupEpisodeId env item = some k)
  | ApiCall.cmdEpisodeSearch k =>
      ctype = ArrType.sonarr ∧
        (item.episode_id = some k ∨ lookupEpisodeId env item = some k)
  | _ => True

/-! ## File integrity validator (`validation.py`)

Subprocess outcomes (`ffprobe` / `ffmpeg` runs) are environment values;
float durations are rationals.  The 3D detector (`detect_3d`, a pure
regex/metadata scan) is abstracted as an environment value holding its
result for the file under test; no claim concerns its internals.
`validate_file` additionally returns the list of decode tests it
attempted, so that fail-fast properties can be stated. -/

/-- The fields of one video stream read by `run_ffprobe`/`validate_file`. -/
structure VideoStream where
  width : Option Int
  height : Option Int
  codec_name : Option String
  bit_rate : Option Int
  duration : Option ℚ
deriving DecidableEq, Repr

/-- The fields of `format_info` read downstream. -/
structure FormatInfo where
  duration : Option ℚ
  bit_rate : Option Int
deriving DecidableEq, Repr

def FormatInfo.empty : FormatInfo := ⟨none, none⟩

/-- How the `ffprobe` subprocess run went. -/
inductive ProbeExec where
  | timedOut
  | exc (msg : String)
  | failed (stderr : String)
  | jsonError (msg : String)
  | parsed (video_streams : List VideoStream) (format_info : FormatInfo)
deriving DecidableEq, Repr

structure ProbeResult where
  success : Bool
  duration : Option ℚ
  video_streams : List VideoStream
  format_info : FormatInfo
  error : Option String
deriving DecidableEq, Repr

/-- Python string interpolation of an optional string. -/
def optStr : Option String → String
  | none => "None"
  | some s => s

/-- `run_ffprobe`: duration comes from `format_info`, falling back to the
first video stream. -/
def run_ffprobe : ProbeExec → ProbeResult
  | ProbeExec.timedOut =>
    ⟨false, none, [], FormatInfo.empty, some "ffprobe timed out"⟩
  | ProbeExec.exc m => ⟨false, none, [], FormatInfo.empty, some m⟩
  | ProbeExec.failed stderr => ⟨false, none, [], FormatInfo.empty, some stderr⟩
  | ProbeExec.jsonError m =>
    ⟨false, none, [], FormatInfo.empty,
      some ("Failed to parse ffprobe output: " ++ m)⟩
  | ProbeExec.parsed vs fmt =>
    let duration :=
      match fmt.duration with
      | some d => some d
      | none => vs.head?.bind (fun v => v.duration)
    ⟨true, duration, vs, fmt, none⟩

/-- How one `ffmpeg` decode-test subprocess run went; `stderrLines` is the
stripped, line-split error output. -/
inductive DecodeExec where
  | timedOut
  | exc (msg : String)
  | exited (returncode : Int) (stderrLines : List String)
deriving DecidableEq, Repr

/-- The known-benign decoder warning patterns (all are literal substrings,
matched case-insensitively). -/
def ignorablePatterns : List String :=
  ["Last message repeated", "Discarding ID3 tags", "deprecated pixel format",
   "Consider increasing the -probesize"]

/-- ASCII lower-casing of one character (the benign patterns are pure
ASCII, so this matches `re.IGNORECASE` on them). -/
def lowerChar (c : Char) : Char :=
  if 65 ≤ c.toNat ∧ c.toNat ≤ 90 then Char.ofNat (c.toNat + 32) else c

def listStartsWith : List Char → List Char → Bool
  | [], _ => true
  | _ :: _, [] => false
  | p :: ps, t :: ts => p == t && listStartsWith ps ts

/-- Substring containment on character lists. -/
def containsSub : List Char → List Char → Bool
  | [], pat => pat.isEmpty
  | c :: ts, pat => listStartsWith pat (c :: ts) || containsSub ts pat

/-- Case-insensitive substring test (the patterns are literal strings, so
`re.search(pattern, line, re.IGNORECASE)` is substring containment after
lower-casing both sides). -/
def containsCI (line pat : String) : Bool :=
  containsSub (line.data.map lowerChar) (pat.data.map lowerChar)

/-- `_is_ignorable_ffmpeg_warning`. -/
def is_ignorable_ffmpeg_warning (line : String) : Bool :=
  ignorablePatterns.any (fun p => containsCI line p)

/-- `run_ffmpeg_decode_test`: returns `(success, errors, timed_out)`; a
timeout is the distinct inconclusive outcome with `timed_out = true`. -/
def run_ffmpeg_decode_test (e : DecodeExec) : Bool × List String × Bool :=
  match e with
  | DecodeExec.timedOut => (false, ["ffmpeg decode test timed out"], true)
  | DecodeExec.exc m => (false, [m], false)
  | DecodeExec.exited rc lines =>
    let errors := lines.filter
      (fun l => l != "" && !(is_ignorable_ffmpeg_warning l))
    let success := rc == 0 && errors.isEmpty
    let errors :=
      if !success && errors.isEmpty then
        ["ffmpeg exited with code " ++ toString rc]
      else errors
    (success, errors, false)

/-- `get_resolution_tier` (the float factor `0.8` is taken exactly; the
tier only feeds advisory warnings). -/
def get_resolution_tier (width height : Int) : String :=
  let pixels := width * height
  if pixels * 10 ≥ 3840 * 2160 * 8 then "4k"
  else if pixels * 10 ≥ 1920 * 1080 * 8 then "1080p"
  else if pixels * 10 ≥ 1280 * 720 * 8 then "720p"
  else "sd"

/-- The fields of the validation configuration read by `validate_file`
(`deep_scan_mode` and `decode_timeout_seconds` are read with `getattr`
defaults `"partial"` and `60`). -/
structure ValidationConfig where
  replace_3d : Bool
  check_duration_sanity : Bool
  max_duration_hours : Int
  check_bitrate : Bool
  min_bitrate_720p : Int
  min_bitrate_1080p : Int
  min_bitrate_4k : Int
  deep_scan_enabled : Bool
  deep_scan_mode : String
  sample_duration_seconds : ℚ
  decode_timeout_seconds : Int
  full_decode_enabled : Bool
deriving DecidableEq, Repr

/-- Per-file validation environment: the `ffprobe` run, the 3D detector's
result, and the outcome of each decode test keyed by its
`(start_seconds, duration_seconds)` arguments. -/
structure FileEnv where
  probeExec : ProbeExec
  detect3d : Option String
  decode : Option ℚ → ℚ → DecodeExec

structure ValidationResult where
  file_path : String
  valid : Bool
  errors : List String
  warnings : List String
  duration_seconds : Option ℚ
  video_bitrate_kbps : Option Int
  audio_bitrate_kbps : Option Int
  width : Option Int
  height : Option Int
  codec : Option String
  timed_out : Bool
deriving DecidableEq, Repr

/-- Which decode tests `validate_file` ran. -/
inductive DecodeAttempt where
  | atStart
  | atMiddle
  | atEnd
  | fullDecode
deriving DecidableEq, Repr

/-- Python `f"{q:.1f}"` for the nonnegative rationals produced here
(rounding of exact half-way values is not exercised by any claim). -/
def fmt1 (q : ℚ) : String :=
  let n : Int := Int.floor (q * 10 + 1 / 2)
  toString (n / 10) ++ "." ++ toString ((n % 10).natAbs)

/-- Outcome of the metadata stages of `validate_file`: `early` is a
`return` before the decode stages (probe failure or 3D hit), `proceed`
continues into them. -/
inductive MetaOutcome where
  | early (r : ValidationResult)
  | proceed (r : ValidationResult)
deriving DecidableEq, Repr

/-- Steps 1-4 of `validate_file`: probe, 3D detection, duration sanity,
bitrate sanity. -/
def validate_meta (file_path : String) (config : ValidationConfig)
    (env : FileEnv) : MetaOutcome :=
  let probe := run_ffprobe env.probeExec
  let base : ValidationResult :=
    { file_path := file_path, valid := true, errors := [], warnings := [],
      duration_seconds := none, video_bitrate_kbps := none,
      audio_bitrate_kbps := none, width := none, height := none,
      codec := none, timed_out := false }
  if probe.success = false then
    MetaOutcome.early { base with
        valid := false,
        errors := ["ffprobe failed: " ++ optStr probe.error] }
  else
    let r1 := { base with duration_seconds := probe.duration }
    let r2 :=
      match probe.video_streams.head? with
      | none => r1
      | some v =>
        let bitrate :=
          match v.bit_rate with
          | some b => some (Int.fdiv b 1000)
          | none =>
            match probe.format_info.bit_rate with
            | some b => some (Int.fdiv b 1000)
            | none => none
        { r1 with
            width := v.width, height := v.height,
            codec := v.codec_name, video_bitrate_kbps := bitrate }
    if config.replace_3d && env.detect3d.isSome then
      MetaOutcome.early { r2 with
          valid := false,
          errors := r2.errors ++
            ["3D content detected: " ++ optStr env.detect3d] }
    else
      let r3 :=
        match probe.duration with
        | some d =>
          if config.check_duration_sanity && d != 0 then
            let max_seconds : ℚ := (config.max_duration_hours : ℚ) * 3600
            let ra :=
              if d > max_seconds then
                { r2 with
                    valid := false,
                    errors := r2.errors ++
                      ["Duration " ++ fmt1 (d / 3600) ++ "h exceeds max " ++
                        toString config.max_duration_hours ++ "h"] }
              else r2
            if d < 60 then
              { ra with
                  warnings := ra.warnings ++
                    ["Duration is very short: " ++ fmt1 d ++ "s"] }
            else ra
          else r2
        | none => r2
      let r4 :=
        if config.check_bitrate && truthyInt r3.width && truthyInt r3.height
            && truthyInt r3.video_bitrate_kbps then
          let tier := get_resolution_tier (r3.width.getD 0) (r3.height.getD 0)
          let min_bitrate :=
            if tier = "4k" then config.min_bitrate_4k
            else if tier = "1080p" then config.min_bitrate_1080p
            else if tier = "720p" then config.min_bitrate_720p
            else 500
          if r3.video_bitrate_kbps.getD 0 < min_bitrate then
            { r3 with
                warnings := r3.warnings ++
                  ["Bitrate " ++ toString (r3.video_bitrate_kbps.getD 0) ++
                    "kbps is low for " ++ tier ++ " (minimum: " ++
                    toString min_bitrate ++ "kbps)"] }
          else r3
        else r3
      MetaOutcome.proceed r4

/-- The start-sample decode of step 5 of `validate_file` (always run when
the deep scan runs). -/
def deep_scan_start (config : ValidationConfig) (env : FileEnv)
    (r4 : ValidationResult) : ValidationResult :=
  if (run_ffmpeg_decode_test
      (env.decode (some 0) config.sample_duration_seconds)).1 then r4
  else
    { r4 with
        valid := false,
        timed_out := r4.timed_out ||
          (run_ffmpeg_decode_test
            (env.decode (some 0) config.sample_duration_seconds)).2.2,
        errors := r4.errors ++
          (run_ffmpeg_decode_test
            (env.decode (some 0) config.sample_duration_seconds)).2.1.map
            (fun e => "Decode error (start): " ++ e) }

/-- The middle sample of the exhaustive deep scan (skipped once the file
is already invalid — fail fast). -/
def deep_scan_middle (config : ValidationConfig) (env : FileEnv) (d : ℚ)
    (rStart : ValidationResult) : ValidationResult × List DecodeAttempt :=
  if rStart.valid && d > config.sample_duration_seconds * 3 then
    (if (run_ffmpeg_decode_test
          (env.decode (some (d / 2 - config.sample_duration_seconds / 2))
            config.sample_duration_seconds)).1 then rStart
     else
       { rStart with
           valid := false,
           timed_out := rStart.timed_out ||
             (run_ffmpeg_decode_test
               (env.decode (some (d / 2 - config.sample_duration_seconds / 2))
                 config.sample_duration_seconds)).2.2,
           errors := rStart.errors ++
             (run_ffmpeg_decode_test
               (env.decode (some (d / 2 - config.sample_duration_seconds / 2))
                 config.sample_duration_seconds)).2.1.map
               (fun e => "Decode error (middle): " ++ e) },
     [DecodeAttempt.atMiddle])
  else (rStart, [])

/-- The end sample of the exhaustive deep scan (also fail fast). -/
def deep_scan_end (config : ValidationConfig) (env : FileEnv) (d : ℚ)
    (rMid : ValidationResult) : ValidationResult × List DecodeAttempt :=
  if rMid.valid && d > config.sample_duration_seconds * 2 then
    (if (run_ffmpeg_decode_test
          (env.decode (some (d - config.sample_duration_seconds))
            config.sample_duration_seconds)).1 then rMid
     else
       { rMid with
           valid := false,
           timed_out := rMid.timed_out ||
             (run_ffmpeg_decode_test
               (env.decode (some (d - config.sample_duration_seconds))
                 config.sample_duration_seconds)).2.2,
           errors := rMid.errors ++
             (run_ffmpeg_decode_test
               (env.decode (some (d - config.sample_duration_seconds))
                 config.sample_duration_seconds)).2.1.map
               (fun e => "Decode error (end): " ++ e) },
     [DecodeAttempt.atEnd])
  else (rMid, [])

/-- Step 5 of `validate_file`: the sampled decode test, run only when
deep scan is enabled and the probed duration is truthy; the middle and
end samples run only in `"full"` mode. -/
def deep_scan_stage (config : ValidationConfig) (env : FileEnv)
    (dur : Option ℚ) (r4 : ValidationResult) :
    ValidationResult × List DecodeAttempt :=
  if config.deep_scan_enabled &&
      (match dur with
       | some d => d != 0
       | none => false) then
    if config.deep_scan_mode = "full" then
      ((deep_scan_end config env (dur.getD 0)
          (deep_scan_middle config env (dur.getD 0)
            (deep_scan_start config env r4)).1).1,
       DecodeAttempt.atStart ::
         ((deep_scan_middle config env (dur.getD 0)
             (deep_scan_start config env r4)).2 ++
          (deep_scan_end config env (dur.getD 0)
            (deep_scan_middle config env (dur.getD 0)
              (deep_scan_start config env r4)).1).2))
    else (deep_scan_start config env r4, [DecodeAttempt.atStart])
  else (r4, [])

/-- Step 6 of `validate_file`: the optional full decode, run only while
the result is still valid. -/
def full_decode_stage (config : ValidationConfig) (env : FileEnv)
    (st : ValidationResult × List DecodeAttempt) :
    ValidationResult × List DecodeAttempt :=
  if config.full_decode_enabled && st.1.valid then
    (if (run_ffmpeg_decode_test (env.decode none 0)).1 then st.1
     else
       { st.1 with
           valid := false,
           timed_out := st.1.timed_out ||
             (run_ffmpeg_decode_test (env.decode none 0)).2.2,
           errors := st.1.errors ++
             (run_ffmpeg_decode_test (env.decode none 0)).2.1.map
               (fun e => "Full decode error: " ++ e) },
     st.2 ++ [DecodeAttempt.fullDecode])
  else st

/-- `validate_file`: staged probe / 3D / duration / bitrate / deep-scan /
full-decode pipeline, returning the result and the decode tests run. -/
def validate_file (file_path : String) (config : ValidationConfig)
    (env : FileEnv) : ValidationResult × List DecodeAttempt :=
  match validate_meta file_path config env with
  | MetaOutcome.early r => (r, [])
  | MetaOutcome.proceed r4 =>
    full_decode_stage config env
      (deep_scan_stage config env (run_ffprobe env.probeExec).duration r4)

/-! ## Scanner (`scanner.py`)

Scan queue, media caches, library refresh, path lookup and initial-scan
completion.  Remote fetches and the watch-count prioritisation / random
shuffle are environment values (`none` models a fetch that raised and was
skipped; the reordering functions stand for the nondeterministic
`random.shuffle` or the watch-count sort — the refresh claims do not
depend on the order, only on it being a permutation, which the theorems
take as a hypothesis). -/

structure ScannerState where
  scanQueue : List MediaItem
  lastFullRefresh : Bool
  initialScanComplete : Bool
  mediaCache : List (String × MediaItem)
  mediaCacheByInstance : List (String × List (String × MediaItem))
  radarrClients : List String
  sonarrClients : List String
  store : StoreState
deriving DecidableEq, Repr

/-- The interleaving loop of `refresh_library`: one movie, then up to ten
TV episodes, until both lists are exhausted. -/
def interleave {α : Type} (mv tv : List α) : List α :=
  if h : mv.length = 0 ∧ tv.length = 0 then []
  else mv.take 1 ++ tv.take 10 ++ interleave (mv.drop 1) (tv.drop 10)
termination_by mv.length + tv.length
decreasing_by
  simp only [List.length_drop]
  rcases not_and_or.mp h with h1 | h1 <;> omega

/-- `Scanner.get_client_for_item`: Radarr items search the Radarr client
list by instance name, everything else searches the Sonarr list. -/
def get_client_for_item (st : ScannerState) (item : MediaItem) :
    Option String :=
  if item.arr_type = some ArrType.radarr then
    st.radarrClients.find? (fun n => some n == item.arr_instance)
  else
    st.sonarrClients.find? (fun n => some n == item.arr_instance)

/-- The per-instance loop of `Scanner.find_item_by_path`: first instance
cache holding the path whose item resolves to a client wins. -/
def findInInstanceCaches (st : ScannerState)
    (caches : List (String × List (String × MediaItem)))
    (file_path : String) : Option (MediaItem × String) :=
  match caches with
  | [] => none
  | ic :: rest =>
    match dictLookup ic.2 file_path with
    | some item =>
      match get_client_for_item st item with
      | some c => some (item, c)
      | none => findInInstanceCaches st rest file_path
    | none => findInInstanceCaches st rest file_path

/-- `Scanner.find_item_by_path`: per-instance caches first, then the flat
cache; also reports whether a multi-instance collision was logged. -/
def find_item_by_path (st : ScannerState) (file_path : String) :
    Option (MediaItem × String) × Bool :=
  (match findInInstanceCaches st st.mediaCacheByInstance file_path with
   | some r => some r
   | none =>
     match dictLookup st.mediaCache file_path with
     | some item =>
       match get_client_for_item st item with
       | some c => some (item, c)
       | none => none
     | none => none,
   decide ((st.mediaCacheByInstance.filter
     (fun ic => dictContains ic.2 file_path)).length > 1))

/-- `Scanner.check_initial_scan_complete`. -/
def check_initial_scan_complete (st : ScannerState) : Bool × ScannerState :=
  if st.initialScanComplete then (true, st)
  else if st.scanQueue.length = 0 ∧ st.lastFullRefresh = true then
    if (get_stats st.store).movies_total > 0 ∧
        (get_stats st.store).movies_scanned
          < (get_stats st.store).movies_total then
      (false, st)
    else if (get_stats st.store).tv_total > 0 ∧
        (get_stats st.store).tv_scanned < (get_stats st.store).tv_total then
      (false, st)
    else
      (true, { st with
                store := mark_scan_completed st.store,
                initialScanComplete := true })
  else (false, st)

/-- Environment of one `refresh_library` call. -/
structure RefreshEnv where
  radarrFetch : List (Option (List MediaItem))
  sonarrFetch : List (Option (List MediaItem))
  orderMovies : List MediaItem → List MediaItem
  orderTv : List MediaItem → List MediaItem

/-- Concatenation of the successful per-client fetches (a raised fetch is
logged and skipped and contributes nothing to the totals). -/
def fetchedItems (fetch : List (Option (List MediaItem))) : List MediaItem :=
  fetch.foldl (fun acc o =>
    match o with
    | some l => acc ++ l
    | none => acc) []

/-- The `{item.file_path: item}` comprehension (truthy paths only, later
duplicates overwrite earlier ones). -/
def buildMediaCache (items : List MediaItem) : List (String × MediaItem) :=
  items.foldl (fun acc it =>
    if truthyStr it.file_path then dictInsert acc (it.file_path.getD "") it
    else acc) []

/-- The per-instance cache build (items with truthy path and instance). -/
def buildInstanceCache (items : List MediaItem) :
    List (String × List (String × MediaItem)) :=
  items.foldl (fun acc it =>
    if truthyStr it.file_path && truthyStr it.arr_instance then
      let inst := it.arr_instance.getD ""
      let p := it.file_path.getD ""
      match dictLookup acc inst with
      | some c => dictInsert acc inst (dictInsert c p it)
      | none => dictInsert acc inst (dictInsert [] p it)
    else acc) []

/-- The `all_media` list of one `refresh_library` call: the Radarr
fetches (for `"all"`/`"movies"`) followed by the Sonarr fetches (for
`"all"`/`"tv"`). -/
def refreshAllMedia (source : String) (env : RefreshEnv) : List MediaItem :=
  (if source = "all" ∨ source = "movies" then fetchedItems env.radarrFetch
   else []) ++
  (if source = "all" ∨ source = "tv" then fetchedItems env.sonarrFetch
   else [])

/-- The store after the library-totals update of `refresh_library` (a
partial refresh keeps the other type's previous total). -/
def refreshStore1 (st : ScannerState) (source : String) (env : RefreshEnv) :
    StoreState :=
  if source = "all" then
    set_library_totals st.store (fetchedItems env.radarrFetch).length
      (fetchedItems env.sonarrFetch).length
  else if source = "movies" then
    set_library_totals st.store (fetchedItems env.radarrFetch).length
      (get_stats st.store).tv_total
  else if source = "tv" then
    set_library_totals st.store (get_stats st.store).movies_total
      (fetchedItems env.sonarrFetch).length
  else st.store

/-- The `new_items` list of `refresh_library`: fetched items with a
truthy path not in the scanned set. -/
def refresh_new_items (st : ScannerState) (source : String)
    (env : RefreshEnv) : List MediaItem :=
  (refreshAllMedia source env).filter (fun it =>
    truthyStr it.file_path &&
      !(get_scanned_paths (refreshStore1 st source env) (it.file_path.getD "")))

/-- `Scanner.refresh_library`: fetch the selected sources, update library
totals, filter to unscanned truthy paths, order, preserve the other media
type's queue on a partial refresh, interleave, rebuild both caches and
mark the scan started on first work.  Returns the number of new items. -/
def refresh_library (st : ScannerState) (source : String) (env : RefreshEnv) :
    Nat × ScannerState :=
  ((refresh_new_items st source env).length,
   { st with
      scanQueue :=
        interleave
          (if source = "tv" then
            st.scanQueue.filter (fun it => it.arr_type == some ArrType.radarr)
           else
            env.orderMovies ((refresh_new_items st source env).filter
              (fun it => it.arr_type == some ArrType.radarr)))
          (if source = "movies" then
            st.scanQueue.filter (fun it => it.arr_type == some ArrType.sonarr)
           else
            env.orderTv ((refresh_new_items st source env).filter
              (fun it => it.arr_type == some ArrType.sonarr))),
      lastFullRefresh := if source = "all" then true else st.lastFullRefresh,
      mediaCache := buildMediaCache (refreshAllMedia source env),
      mediaCacheByInstance := buildInstanceCache (refreshAllMedia source env),
      store :=
        if st.initialScanComplete = false
            ∧ 0 < (refresh_new_items st source env).length then
          mark_scan_started (refreshStore1 st source env)
        else refreshStore1 st source env })

/-! ## Decision orchestrator and rate limiter (`janitor.py`)

`detect_path_mismatch` (a pure filename heuristic in `reports.py` that no
claim concerns) is abstracted as an environment value holding its result
for the item under test; dates are day ordinals. -/

structure JanitorConfig where
  auto_replace : Bool
  blocklist_bad_releases : Bool
  max_replacements_per_day : Nat
deriving DecidableEq, Repr

structure JanitorState where
  scanner : ScannerState
  replacements_today : Nat
  replacement_reset_date : Nat
deriving DecidableEq, Repr

/-- `Janitor._check_rate_limit`: reset the counter when the calendar day
advanced, then compare against the daily budget.  Returns the verdict and
the (possibly reset) janitor state. -/
def check_rate_limit (cfg : JanitorConfig) (js : JanitorState)
    (today : Nat) : Bool × JanitorState :=
  if today ≠ js.replacement_reset_date then
    (decide (0 < cfg.max_replacements_per_day),
     { js with replacements_today := 0, replacement_reset_date := today })
  else
    (decide (js.replacements_today < cfg.max_replacements_per_day), js)

/-- `notifications.ScanResult` (timestamp dropped). -/
structure ScanResult where
  file_path : String
  title : String
  valid : Bool
  errors : List String
  warnings : List String
  action_taken : Option String := none
  media_type : String := "unknown"
deriving DecidableEq, Repr

/-- The two fields of `reports.PathMismatch` read by the orchestrator. -/
structure PathMismatch where
  expected_folder : String
  actual_filename : String
deriving DecidableEq, Repr

def sq : String := "\x27"

/-- The synthetic wrong-file error appended on a path mismatch. -/
def wrong_file_error (m : PathMismatch) : String :=
  "Wrong file: expected " ++ sq ++ m.expected_folder ++ sq ++
    " but found " ++ sq ++ m.actual_filename ++ sq

/-- Environment of one `validate_and_process` call. -/
structure ProcessEnv where
  file_exists : Bool
  today : Nat
  validation : ValidationResult
  mismatch : Option PathMismatch
  arrEnv : ArrEnv

/-- The invalid-file tail of `Janitor.validate_and_process` (from the
auto-replace check on): flag, queue on rate limit, or replace. -/
def process_invalid (cfg : JanitorConfig) (js : JanitorState)
    (file_path : String) (item : MediaItem) (ctype : ArrType)
    (media_type : String) (scan0 : ScanResult) (env : ProcessEnv) :
    Option ScanResult × JanitorState :=
  if cfg.auto_replace = false then
    (some { scan0 with action_taken := some "flagged" },
     { js with scanner := { js.scanner with
        store := mark_scanned js.scanner.store file_path false media_type } })
  else if (check_rate_limit cfg js env.today).1 = false then
    (some { scan0 with action_taken := some "queued" },
     (check_rate_limit cfg js env.today).2)
  else if (replace_file ctype env.arrEnv cfg.blocklist_bad_releases item).1 then
    (some { scan0 with action_taken := some "replaced" },
     { (check_rate_limit cfg js env.today).2 with
        replacements_today :=
          (check_rate_limit cfg js env.today).2.replacements_today + 1,
        scanner := { (check_rate_limit cfg js env.today).2.scanner with
          store := mark_replaced
            (check_rate_limit cfg js env.today).2.scanner.store file_path
            false "" "" "unknown" } })
  else
    (some { scan0 with action_taken := some "flagged" },
     { (check_rate_limit cfg js env.today).2 with
        scanner := { (check_rate_limit cfg js env.today).2.scanner with
          store := mark_scanned
            (check_rate_limit cfg js env.today).2.scanner.store file_path
            false media_type } })

/-- `Janitor.validate_and_process`: skip missing files and cache misses,
validate, override validity on path mismatch, then record / flag / queue /
replace. -/
def validate_and_process (cfg : JanitorConfig) (js : JanitorState)
    (file_path : String) (env : ProcessEnv) :
    Option ScanResult × JanitorState :=
  if env.file_exists = false then (none, js)
  else
    match (find_item_by_path js.scanner file_path).1 with
    | none => (none, js)
    | some (item, _client) =>
      let ctype :=
        if item.arr_type = some ArrType.radarr then ArrType.radarr
        else ArrType.sonarr
      let vr := env.validation
      let media_type :=
        if item.arr_type = some ArrType.radarr then "movie" else "tv"
      let scan0 : ScanResult :=
        { file_path := file_path, title := item.title, valid := vr.valid,
          errors := vr.errors, warnings := vr.warnings,
          media_type := media_type }
      if vr.valid then
        match env.mismatch with
        | none =>
          let js1 := { js with scanner := { js.scanner with
            store := mark_scanned js.scanner.store file_path true media_type } }
          (some scan0, js1)
        | some m =>
          let errors1 := vr.errors ++ [wrong_file_error m]
          process_invalid cfg js file_path item ctype media_type
            { scan0 with valid := false, errors := errors1 } env
      else
        process_invalid cfg js file_path item ctype media_type scan0 env

/-! ## Concrete inputs used by witnesses and counterexamples -/

/-- A sample Radarr validation config: probe timeout witness. -/
def c10Config : ValidationConfig :=
  ⟨false, true, 12, true, 1500, 3000, 8000, true, "partial", 30, 60, false⟩

def c10Env : FileEnv :=
  ⟨ProbeExec.timedOut, none, fun _ _ => DecodeExec.exited 0 []⟩

/-- A cached Radarr movie used by the rate-limit witness. -/
def w2Item : MediaItem :=
  { id := 1, title := "M", file_path := some "/m/a.mkv", file_id := some 11,
    arr_type := some ArrType.radarr, arr_instance := some "radarr" }

def w2Scanner : ScannerState :=
  { scanQueue := [], lastFullRefresh := false, initialScanComplete := false,
    mediaCache := [("/m/a.mkv", w2Item)],
    mediaCacheByInstance := [("radarr", [("/m/a.mkv", w2Item)])],
    radarrClients := ["radarr"], sonarrClients := [],
    store := StoreState.empty }

def w2JS : JanitorState := ⟨w2Scanner, 2, 7⟩

def w2Cfg : JanitorConfig := ⟨true, true, 2⟩

def w2VR : ValidationResult :=
  { file_path := "/m/a.mkv", valid := false, errors := ["bad"],
    warnings := [], duration_seconds := none, video_bitrate_kbps := none,
    audio_bitrate_kbps := none, width := none, height := none,
    codec := none, timed_out := false }

def w2ArrEnv : ArrEnv :=
  ⟨none, fun _ => none, fun _ => none, fun _ => none, false, false,
    fun _ => false⟩

def w2Env : ProcessEnv := ⟨true, 7, w2VR, none, w2ArrEnv⟩

/-- Scanner states exercising both directions of the completion guard. -/
def w8Item : MediaItem :=
  { id := 3, title := "T", file_path := some "/t/a.mkv", file_id := some 4 }

def w8StBusy : ScannerState :=
  { scanQueue := [w8Item], lastFullRefresh := true,
    initialScanComplete := false, mediaCache := [],
    mediaCacheByInstance := [], radarrClients := [], sonarrClients := [],
    store := StoreState.empty }

def w8StDone : ScannerState :=
  { scanQueue := [], lastFullRefresh := true, initialScanComplete := false,
    mediaCache := [], mediaCacheByInstance := [], radarrClients := [],
    sonarrClients := [], store := StoreState.empty }

/-- The decode-timeout scenario of claim C4. -/
def c4Item : MediaItem :=
  { id := 5, title := "X", file_path := some "/m/x.mkv", file_id := some 9,
    arr_type := some ArrType.radarr, arr_instance := some "radarr" }

def c4Scanner : ScannerState :=
  { scanQueue := [], lastFullRefresh := false, initialScanComplete := false,
    mediaCache := [("/m/x.mkv", c4Item)],
    mediaCacheByInstance := [("radarr", [("/m/x.mkv", c4Item)])],
    radarrClients := ["radarr"], sonarrClients := [],
    store := StoreState.empty }

def c4VConfig : ValidationConfig :=
  ⟨false, false, 12, false, 1500, 3000, 8000, true, "partial", 30, 60, false⟩

def c4FileEnv : FileEnv :=
  ⟨ProbeExec.parsed [] ⟨some 600, none⟩, none, fun _ _ => DecodeExec.timedOut⟩

def c4VR : ValidationResult := (validate_file "/m/x.mkv" c4VConfig c4FileEnv).1

def c4ArrEnv : ArrEnv :=
  ⟨none, fun _ => none, fun _ => none, fun _ => none, false, false,
    fun _ => false⟩

def c4Cfg : JanitorConfig := ⟨false, true, 10⟩

def c4JS : JanitorState := ⟨c4Scanner, 0, 0⟩

def c4Env : ProcessEnv := ⟨true, 0, c4VR, none, c4ArrEnv⟩

/-- The replacement scenario exercising the audit-entry defaults. -/
def w9Item : MediaItem :=
  { id := 2, title := "N", file_path := some "/m/b.mkv", file_id := some 12,
    arr_type := some ArrType.radarr, arr_instance := some "radarr" }

def w9Scanner : ScannerState :=
  { scanQueue := [], lastFullRefresh := false, initialScanComplete := false,
    mediaCache := [("/m/b.mkv", w9Item)],
    mediaCacheByInstance := [("radarr", [("/m/b.mkv", w9Item)])],
    radarrClients := ["radarr"], sonarrClients := [],
    store := StoreState.empty }

def w9JS : JanitorState := ⟨w9Scanner, 0, 0⟩

def w9Cfg : JanitorConfig := ⟨true, false, 5⟩

def w9VR : ValidationResult :=
  { file_path := "/m/b.mkv", valid := false, errors := ["corrupt"],
    warnings := [], duration_seconds := none, video_bitrate_kbps := none,
    audio_bitrate_kbps := none, width := none, height := none,
    codec := none, timed_out := false }

def w9ArrEnv : ArrEnv :=
  ⟨none, fun _ => none, fun _ => none, fun _ => none, false, false,
    fun _ => true⟩

def w9Env : ProcessEnv := ⟨true, 0, w9VR, none, w9ArrEnv⟩

/-- Two Sonarr instances caching the same path (claim C7 witness). -/
def w7ItemA : MediaItem :=
  { id := 21, title := "A", file_path := some "/t/e.mkv",
    file_id := some 31, arr_type := some ArrType.sonarr,
    arr_instance := some "sonarr" }

def w7ItemB : MediaItem :=
  { id := 22, title := "A", file_path := some "/t/e.mkv",
    file_id := some 32, arr_type := some ArrType.sonarr,
    arr_instance := some "sonarr2" }

def w7St : ScannerState :=
  { scanQueue := [], lastFullRefresh := false, initialScanComplete := false,
    mediaCache := [("/t/e.mkv", w7ItemB)],
    mediaCacheByInstance :=
      [("sonarr", [("/t/e.mkv", w7ItemA)]),
       ("sonarr2", [("/t/e.mkv", w7ItemB)])],
    radarrClients := [], sonarrClients := ["sonarr", "sonarr2"],
    store := StoreState.empty }

/-- A replacement run whose only remote call is the deletion (claim C1
witness). -/
def w1Item : MediaItem :=
  { id := 41, title := "W", file_path := some "/m/w.mkv", file_id := some 7,
    arr_type := some ArrType.radarr, arr_instance := some "radarr" }

def w1Env : ArrEnv :=
  ⟨none, fun _ => none, fun _ => none, fun _ => none, false, false,
    fun _ => false⟩

/-- A queue holding one movie and one episode while a TV-only refresh
fetches one new episode (claim C6 witness). -/
def w6Movie : MediaItem :=
  { id := 51, title := "MV", file_path := some "/m/m1.mkv",
    file_id := some 61, arr_type := some ArrType.radarr,
    arr_instance := some "radarr" }

def w6Tv : MediaItem :=
  { id := 52, title := "TV", file_path := some "/t/t0.mkv",
    file_id := some 62, arr_type := some ArrType.sonarr,
    arr_instance := some "sonarr" }

def w6TvNew : MediaItem :=
  { id := 53, title := "TV2", file_path := some "/t/t1.mkv",
    file_id := some 63, arr_type := some ArrType.sonarr,
    arr_instance := some "sonarr" }

def w6St : ScannerState :=
  { scanQueue := [w6Movie, w6Tv], lastFullRefresh := true,
    initialScanComplete := false, mediaCache := [],
    mediaCacheByInstance := [], radarrClients := ["radarr"],
    sonarrClients := ["sonarr"], store := StoreState.empty }

def w6Env : RefreshEnv :=
  ⟨[], [some [w6TvNew]], fun l => l, fun l => l⟩

/-- Full-mode deep scan with a failing start sample on a file whose
duration also breaks the sanity ceiling (claim C5). -/
def c5Config : ValidationConfig :=
  ⟨false, true, 1, false, 1500, 3000, 8000, true, "full", 30, 60, false⟩

def c5Env : FileEnv :=
  ⟨ProbeExec.parsed [] ⟨some 7200, none⟩, none,
   fun s _ =>
     if s = some 0 then DecodeExec.exited 1 ["boom"]
     else DecodeExec.exited 0 []⟩

end MediaJanitor

/-! # Theorems -/

namespace MediaJanitor

theorem find?_dictErase {α : Type} (d : List (String × α)) (k : String) :
    ((dictErase d k).find? (fun kv => kv.1 == k)) = none := by
  induction d with
  | nil => rfl
  | cons hd tl ih =>
    by_cases h : hd.1 = k
    · simpa [dictErase, List.filter_cons, h] using ih
    · simpa [dictErase, List.filter_cons, h, List.find?_cons,
        show (hd.1 == k) = false by simpa using h] using ih

theorem dictLookup_dictErase {α : Type} (d : List (String × α)) (k : String) :
    dictLookup (dictErase d k) k = none := by
  simp [dictLookup, find?_dictErase]

/-- Claim C3: for every path and every store state, immediately after
`mark_replaced(P, ...)` the call `is_scanned(P)` returns `false`: the scan
record for `P` is removed, so a future file at that path is eligible for
scanning again. -/
theorem mark_replaced_clears_scan_record (s : StoreState) (p : String)
    (wrong_file : Bool) (title reason media_type : String) :
    is_scanned (mark_replaced s p wrong_file title reason media_type) p
      = false := by
  simp [is_scanned, mark_replaced, dictLookup_dictErase]

/-- Claim C10: when the metadata probe (`ffprobe`) times out,
`validate_file` returns `valid = false`, `timed_out = false` and the
single error `"ffprobe failed: ffprobe timed out"`, attempting no decode
test — a probe-stage timeout is reported as a confirmed hard failure, not
as the inconclusive timed-out outcome of decode-stage timeouts. -/
theorem probe_timeout_is_hard_failure (fp : String)
    (config : ValidationConfig) (env : FileEnv)
    (h : env.probeExec = ProbeExec.timedOut) :
    (validate_file fp config env).1.valid = false ∧
    (validate_file fp config env).1.timed_out = false ∧
    (validate_file fp config env).1.errors =
      ["ffprobe failed: ffprobe timed out"] ∧
    (validate_file fp config env).2 = [] := by
  simp [validate_file, validate_meta, run_ffprobe, h, optStr]

/-- Witness for C10 at a concrete config and environment. -/
theorem probe_timeout_is_hard_failure_witness :
    (validate_file "/media/movie.mkv" c10Config c10Env).1.valid = false ∧
    (validate_file "/media/movie.mkv" c10Config c10Env).1.timed_out = false ∧
    (validate_file "/media/movie.mkv" c10Config c10Env).1.errors =
      ["ffprobe failed: ffprobe timed out"] ∧
    (validate_file "/media/movie.mkv" c10Config c10Env).2 = [] :=
  probe_timeout_is_hard_failure "/media/movie.mkv" c10Config c10Env rfl

/-- Claim C2: when today's replacement budget is already used up, an
invalid file processed with auto-replace enabled gets the `"queued"`
disposition and the janitor state — in particular the scanned set — is
left untouched, so the file is retried on a future day. -/
theorem rate_limited_file_is_queued_and_unscanned (cfg : JanitorConfig)
    (js : JanitorState) (p : String) (env : ProcessEnv)
    (item : MediaItem) (cl : String)
    (hex : env.file_exists = true)
    (hfound : (find_item_by_path js.scanner p).1 = some (item, cl))
    (hinvalid : env.validation.valid = false)
    (hauto : cfg.auto_replace = true)
    (htoday : env.today = js.replacement_reset_date)
    (hbudget : cfg.max_replacements_per_day ≤ js.replacements_today) :
    ((validate_and_process cfg js p env).1.map (fun r => r.action_taken))
        = some (some "queued") ∧
    (validate_and_process cfg js p env).2 = js ∧
    is_scanned (validate_and_process cfg js p env).2.scanner.store p
      = is_scanned js.scanner.store p := by
  have hlt : ¬ (js.replacements_today < cfg.max_replacements_per_day) :=
    Nat.not_lt.mpr hbudget
  simp [validate_and_process, process_invalid, check_rate_limit, hex,
    hfound, hinvalid, hauto, htoday, hlt]

/-- Witness for C2: budget 2, two replacements already counted today. -/
theorem rate_limited_file_is_queued_and_unscanned_witness :
    ((validate_and_process w2Cfg w2JS "/m/a.mkv" w2Env).1.map
        (fun r => r.action_taken)) = some (some "queued") ∧
    (validate_and_process w2Cfg w2JS "/m/a.mkv" w2Env).2 = w2JS ∧
    is_scanned (validate_and_process w2Cfg w2JS "/m/a.mkv" w2Env).2.scanner.store
        "/m/a.mkv"
      = is_scanned w2JS.scanner.store "/m/a.mkv" :=
  rate_limited_file_is_queued_and_unscanned w2Cfg w2JS "/m/a.mkv" w2Env
    w2Item "radarr" rfl (by decide) rfl rfl rfl (by decide)

/-- Claim C8: the scan-completed timestamp is set only in states where
the queue is empty (after a full refresh) and every media type with a
positive last-known total has cumulative scanned count (current records
of that type plus ever-replaced count) at least that total; in any other
state `check_initial_scan_complete` leaves the timestamp unchanged. -/
theorem initial_scan_completion_guard (st : ScannerState) :
    ((check_initial_scan_complete st).2.store.scan_completed
        ≠ st.store.scan_completed →
      st.scanQueue.length = 0 ∧ st.lastFullRefresh = true ∧
      ((get_stats st.store).movies_total > 0 →
        (get_stats st.store).movies_total
          ≤ (get_stats st.store).movies_scanned) ∧
      ((get_stats st.store).tv_total > 0 →
        (get_stats st.store).tv_total ≤ (get_stats st.store).tv_scanned)) ∧
    (¬ (st.scanQueue.length = 0 ∧
        ((get_stats st.store).movies_total > 0 →
          (get_stats st.store).movies_total
            ≤ (get_stats st.store).movies_scanned) ∧
        ((get_stats st.store).tv_total > 0 →
          (get_stats st.store).tv_total ≤ (get_stats st.store).tv_scanned)) →
      (check_initial_scan_complete st).2.store.scan_completed
        = st.store.scan_completed) := by
  constructor
  · intro h
    unfold check_initial_scan_complete at h
    split_ifs at h with h1 h2 h3 h4
    · exact absurd rfl h
    · exact absurd rfl h
    · exact absurd rfl h
    · refine ⟨h2.1, h2.2, ?_, ?_⟩
      · intro hm
        by_contra hc
        exact h3 ⟨hm, by omega⟩
      · intro htv
        by_contra hc
        exact h4 ⟨htv, by omega⟩
    · exact absurd rfl h
  · intro h
    unfold check_initial_scan_complete
    split_ifs with h1 h2 h3 h4
    · rfl
    · rfl
    · rfl
    · exact absurd ⟨h2.1,
        fun hm => by by_contra hc; exact h3 ⟨hm, by omega⟩,
        fun htv => by by_contra hc; exact h4 ⟨htv, by omega⟩⟩ h
    · rfl

/-- Witness for C8: one state that marks completion (empty queue, totals
zero) and one that is left unchanged (non-empty queue). -/
theorem initial_scan_completion_guard_witness :
    (w8StDone.scanQueue.length = 0 ∧ w8StDone.lastFullRefresh = true ∧
      ((get_stats w8StDone.store).movies_total > 0 →
        (get_stats w8StDone.store).movies_total
          ≤ (get_stats w8StDone.store).movies_scanned) ∧
      ((get_stats w8StDone.store).tv_total > 0 →
        (get_stats w8StDone.store).tv_total
          ≤ (get_stats w8StDone.store).tv_scanned)) ∧
    (check_initial_scan_complete w8StBusy).2.store.scan_completed
      = w8StBusy.store.scan_completed :=
  ⟨(initial_scan_completion_guard w8StDone).1 (by decide),
   (initial_scan_completion_guard w8StBusy).2 (by decide)⟩

/-- Claim C4 (code bug): the validator reports a decode-test timeout as
`timed_out = true`, `valid = false` (meant to stay retryable), but
`validate_and_process` never consults `timed_out`: with auto-replace off
it marks the file scanned-as-invalid, making the timeout permanent. -/
theorem decode_timeout_marked_invalid_scanned :
    c4VR.timed_out = true ∧ c4VR.valid = false ∧
    ((validate_and_process c4Cfg c4JS "/m/x.mkv" c4Env).1.map
        (fun r => r.action_taken)) = some (some "flagged") ∧
    is_scanned
        (validate_and_process c4Cfg c4JS "/m/x.mkv" c4Env).2.scanner.store
        "/m/x.mkv" = true := by
  decide

theorem getLast?_append_singleton {α : Type} (l : List α) (a : α) :
    (l ++ [a]).getLast? = some a := by
  rw [List.getLast?_append_cons]
  rfl

theorem mark_replaced_getLast (s : StoreState) (p : String) (w : Bool)
    (t r m : String) :
    (mark_replaced s p w t r m).replaced_files.getLast?
      = some ⟨p, t, r, w, m⟩ := by
  have hrf : (mark_replaced s p w t r m).replaced_files
      = if (s.replaced_files ++ [(⟨p, t, r, w, m⟩ : ReplacedEntry)]).length
            > 500 then
          (s.replaced_files ++ [(⟨p, t, r, w, m⟩ : ReplacedEntry)]).drop
            ((s.replaced_files
                ++ [(⟨p, t, r, w, m⟩ : ReplacedEntry)]).length - 500)
        else s.replaced_files ++ [(⟨p, t, r, w, m⟩ : ReplacedEntry)] := rfl
  rw [hrf]
  split_ifs with h
  · rw [List.drop_append_of_le_length (by simp)]
    exact getLast?_append_singleton _ _
  · exact getLast?_append_singleton _ _

theorem check_rate_limit_scanner (cfg : JanitorConfig) (js : JanitorState)
    (today : Nat) :
    (check_rate_limit cfg js today).2.scanner = js.scanner := by
  unfold check_rate_limit
  split <;> rfl

theorem process_invalid_replaced (cfg : JanitorConfig) (js : JanitorState)
    (p : String) (item : MediaItem) (ctype : ArrType) (mt : String)
    (scan0 : ScanResult) (env : ProcessEnv)
    (h : ((process_invalid cfg js p item ctype mt scan0 env).1.map
          (fun r => r.action_taken)) = some (some "replaced")) :
    (process_invalid cfg js p item ctype mt scan0
        env).2.scanner.store.replaced_files.getLast?
        = some ⟨p, "", "", false, "unknown"⟩ ∧
    (process_invalid cfg js p item ctype mt scan0
        env).2.scanner.store.total_wrong_files
        = js.scanner.store.total_wrong_files := by
  unfold process_invalid at h ⊢
  split_ifs at h ⊢ with h1 h2 h3
  · simp at h
  · simp at h
  · constructor
    · simpa using mark_replaced_getLast
        (check_rate_limit cfg js env.today).2.scanner.store p false "" ""
        "unknown"
    · have hsc := check_rate_limit_scanner cfg js env.today
      simp [mark_replaced, hsc]
  · simp at h

/-- Claim C9: every replacement performed through `validate_and_process`
appends an audit entry with `wrong_file = false`, empty title, empty
reason and media type `"unknown"` (the orchestrator calls `mark_replaced`
with only the path), and `total_wrong_files` is never incremented by this
code path. -/
theorem replacement_audit_defaults (cfg : JanitorConfig) (js : JanitorState)
    (p : String) (env : ProcessEnv)
    (h : ((validate_and_process cfg js p env).1.map
          (fun r => r.action_taken)) = some (some "replaced")) :
    (validate_and_process cfg js p
        env).2.scanner.store.replaced_files.getLast?
        = some ⟨p, "", "", false, "unknown"⟩ ∧
    (validate_and_process cfg js p env).2.scanner.store.total_wrong_files
        = js.scanner.store.total_wrong_files := by
  cases hex : env.file_exists with
  | false => simp [validate_and_process, hex] at h
  | true =>
    cases hfind : (find_item_by_path js.scanner p).1 with
    | none => simp [validate_and_process, hex, hfind] at h
    | some ic =>
      obtain ⟨item, cl⟩ := ic
      cases hvalid : env.validation.valid with
      | false =>
        have heq : validate_and_process cfg js p env
            = process_invalid cfg js p item
              (if item.arr_type = some ArrType.radarr then ArrType.radarr
               else ArrType.sonarr)
              (if item.arr_type = some ArrType.radarr then "movie" else "tv")
              { file_path := p, title := item.title,
                valid := env.validation.valid,
                errors := env.validation.errors,
                warnings := env.validation.warnings,
                media_type :=
                  if item.arr_type = some ArrType.radarr then "movie"
                  else "tv" } env := by
          simp [validate_and_process, hex, hfind, hvalid]
        rw [heq] at h ⊢
        exact process_invalid_replaced _ _ _ _ _ _ _ _ h
      | true =>
        cases hmis : env.mismatch with
        | none => simp [validate_and_process, hex, hfind, hvalid, hmis] at h
        | some m =>
          have heq : validate_and_process cfg js p env
              = process_invalid cfg js p item
                (if item.arr_type = some ArrType.radarr then ArrType.radarr
                 else ArrType.sonarr)
                (if item.arr_type = some ArrType.radarr then "movie"
                 else "tv")
                { file_path := p, title := item.title, valid := false,
                  errors := env.validation.errors ++ [wrong_file_error m],
                  warnings := env.validation.warnings,
                  media_type :=
                    if item.arr_type = some ArrType.radarr then "movie"
                    else "tv" } env := by
            simp [validate_and_process, hex, hfind, hvalid, hmis]
          rw [heq] at h ⊢
          exact process_invalid_replaced _ _ _ _ _ _ _ _ h

/-- Witness for C9: a concrete replacement run. -/
theorem replacement_audit_defaults_witness :
    (validate_and_process w9Cfg w9JS "/m/b.mkv"
        w9Env).2.scanner.store.replaced_files.getLast?
        = some ⟨"/m/b.mkv", "", "", false, "unknown"⟩ ∧
    (validate_and_process w9Cfg w9JS "/m/b.mkv"
        w9Env).2.scanner.store.total_wrong_files
        = w9JS.scanner.store.total_wrong_files :=
  replacement_audit_defaults w9Cfg w9JS "/m/b.mkv" w9Env (by decide)

theorem dictContains_of_lookup {α : Type} {d : List (String × α)}
    {k : String} {v : α} (h : dictLookup d k = some v) :
    dictContains d k = true := by
  unfold dictLookup at h
  unfold dictContains
  cases hf : d.find? (fun kv => kv.1 == k) with
  | none => rw [hf] at h; simp at h
  | some kv =>
    have hp : (kv.1 == k) = true := by
      simpa using List.find?_some hf
    exact List.any_eq_true.mpr ⟨kv, List.mem_of_find?_eq_some hf, hp⟩

theorem one_lt_length_of_two_mem {α : Type} {l : List α} {a b : α}
    (ha : a ∈ l) (hb : b ∈ l) (hne : a ≠ b) : 1 < l.length := by
  cases l with
  | nil => simp at ha
  | cons x t =>
    cases t with
    | nil =>
      rw [List.mem_singleton] at ha hb
      exact absurd (ha.trans hb.symm) hne
    | cons y u =>
      simp only [List.length_cons]
      omega

theorem findInInstanceCaches_none {st : ScannerState}
    {caches : List (String × List (String × MediaItem))} {p : String}
    (h : findInInstanceCaches st caches p = none) :
    ∀ ic ∈ caches, ∀ it, dictLookup ic.2 p = some it →
      get_client_for_item st it = none := by
  induction caches with
  | nil =>
    intro ic hic
    simp at hic
  | cons c rest ih =>
    intro ic hic it hl
    simp only [findInInstanceCaches] at h
    split at h
    · rename_i item hd
      split at h
      · rename_i cc hcl
        simp at h
      · rename_i hcl
        rcases List.mem_cons.mp hic with rfl | hmem
        · rw [hd] at hl
          cases hl
          exact hcl
        · exact ih h ic hmem it hl
    · rename_i hd
      rcases List.mem_cons.mp hic with rfl | hmem
      · rw [hd] at hl
        cases hl
      · exact ih h ic hmem it hl

theorem findInInstanceCaches_some {st : ScannerState}
    {caches : List (String × List (String × MediaItem))} {p : String}
    {r : MediaItem × String}
    (h : findInInstanceCaches st caches p = some r) :
    ∃ ic, ic ∈ caches ∧ dictLookup ic.2 p = some r.1 ∧
      get_client_for_item st r.1 = some r.2 := by
  induction caches with
  | nil => simp [findInInstanceCaches] at h
  | cons c rest ih =>
    simp only [findInInstanceCaches] at h
    split at h
    · rename_i item hd
      split at h
      · rename_i cc hcl
        cases h
        exact ⟨c, List.mem_cons_self c rest, hd, hcl⟩
      · rename_i hcl
        obtain ⟨ic, hmem, hl, hc⟩ := ih h
        exact ⟨ic, List.mem_cons_of_mem c hmem, hl, hc⟩
    · rename_i hd
      obtain ⟨ic, hmem, hl, hc⟩ := ih h
      exact ⟨ic, List.mem_cons_of_mem c hmem, hl, hc⟩

/-- Claim C7: when the same path is cached under two different source
instances, `find_item_by_path` reports the collision and returns the
cached item of exactly one instance — an entry of a single per-instance
cache, never a merge — and, being a pure function of the cache contents,
returns the same instance's item on every call over the same cache. -/
theorem duplicate_path_lookup (st : ScannerState) (p : String)
    (i1 i2 : String) (c1 c2 : List (String × MediaItem))
    (it1 it2 : MediaItem) (cl1 : String)
    (h1 : (i1, c1) ∈ st.mediaCacheByInstance)
    (h2 : (i2, c2) ∈ st.mediaCacheByInstance)
    (hne : i1 ≠ i2)
    (hl1 : dictLookup c1 p = some it1)
    (hl2 : dictLookup c2 p = some it2)
    (hcl : get_client_for_item st it1 = some cl1) :
    (find_item_by_path st p).2 = true ∧
    ∃ inst cache item cl, (inst, cache) ∈ st.mediaCacheByInstance ∧
      dictLookup cache p = some item ∧
      (find_item_by_path st p).1 = some (item, cl) := by
  have hlen : 1 < (st.mediaCacheByInstance.filter
      (fun ic => dictContains ic.2 p)).length := by
    refine one_lt_length_of_two_mem
      (List.mem_filter.mpr ⟨h1, dictContains_of_lookup hl1⟩)
      (List.mem_filter.mpr ⟨h2, dictContains_of_lookup hl2⟩) ?_
    intro hctr
    exact hne (congrArg Prod.fst hctr)
  constructor
  · simp [find_item_by_path, hlen]
  · cases hf : findInInstanceCaches st st.mediaCacheByInstance p with
    | none =>
      have := findInInstanceCaches_none hf (i1, c1) h1 it1 hl1
      rw [hcl] at this
      cases this
    | some r =>
      obtain ⟨ic, hmem, hlook, hclr⟩ := findInInstanceCaches_some hf
      refine ⟨ic.1, ic.2, r.1, r.2, ?_, hlook, ?_⟩
      · simpa using hmem
      · simp [find_item_by_path, hf]

/-- Witness for C7 at a two-instance cache holding the same path. -/
theorem duplicate_path_lookup_witness :
    (find_item_by_path w7St "/t/e.mkv").2 = true ∧
    ∃ inst cache item cl, (inst, cache) ∈ w7St.mediaCacheByInstance ∧
      dictLookup cache "/t/e.mkv" = some item ∧
      (find_item_by_path w7St "/t/e.mkv").1 = some (item, cl) :=
  duplicate_path_lookup w7St "/t/e.mkv" "sonarr" "sonarr2"
    [("/t/e.mkv", w7ItemA)] [("/t/e.mkv", w7ItemB)] w7ItemA w7ItemB "sonarr"
    (by decide) (by decide) (by decide) (by decide) (by decide) (by decide)

theorem truthyInt_some {o : Option Int} (h : truthyInt o = true) :
    o = some (o.getD 0) := by
  cases o with
  | none => simp [truthyInt] at h
  | some n => rfl

theorem keyDiscipline_getEpisodes (ctype : ArrType) (env : ArrEnv)
    (item : MediaItem) (sid : Int) :
    keyDiscipline ctype env item (ApiCall.getEpisodes sid) := trivial

theorem resolve_episode_id_calls (env : ArrEnv) (item : MediaItem)
    (ctype : ArrType) :
    ∀ c ∈ (resolve_episode_id env item).2,
      keyDiscipline ctype env item c := by
  intro c hc
  unfold resolve_episode_id at hc
  split_ifs at hc with h
  · simp at hc
  · unfold get_episode_id_by_info at hc
    split_ifs at hc with h2
    · simp at hc
    · split at hc
      · simp at hc
        subst hc
        trivial
      · split at hc <;> (simp at hc; subst hc; trivial)

theorem resolve_episode_id_spec (env : ArrEnv) (item : MediaItem) :
    (resolve_episode_id env item).1 = item.episode_id ∨
    (resolve_episode_id env item).1 = lookupEpisodeId env item := by
  unfold resolve_episode_id lookupEpisodeId
  split_ifs with h
  · exact Or.inl rfl
  · exact Or.inr rfl

theorem resolve_key_ok (env : ArrEnv) (item : MediaItem)
    (h : truthyInt (resolve_episode_id env item).1 = true) :
    item.episode_id = some ((resolve_episode_id env item).1.getD 0) ∨
    lookupEpisodeId env item
      = some ((resolve_episode_id env item).1.getD 0) := by
  have hs := resolve_episode_id_spec env item
  cases hr : (resolve_episode_id env item).1 with
  | none => rw [hr] at h; simp [truthyInt] at h
  | some k =>
    rw [hr] at hs
    rcases hs with hs | hs
    · exact Or.inl hs.symm
    · exact Or.inr hs.symm

theorem fallback_search_calls (ctype : ArrType) (env : ArrEnv)
    (item : MediaItem) :
    ∀ c ∈ (fallback_search ctype env item).2,
      keyDiscipline ctype env item c := by
  intro c hc
  cases ctype with
  | radarr =>
    simp only [fallback_search] at hc
    rw [List.mem_singleton] at hc
    subst hc
    exact ⟨rfl, rfl⟩
  | sonarr =>
    simp only [fallback_search] at hc
    split_ifs at hc with h
    · rw [List.mem_append] at hc
      rcases hc with hc | hc
      · exact resolve_episode_id_calls env item ArrType.sonarr c hc
      · rw [List.mem_singleton] at hc
        subst hc
        exact ⟨rfl, resolve_key_ok env item h⟩
    · exact resolve_episode_id_calls env item ArrType.sonarr c hc

theorem search_with_releases_calls (ctype : ArrType) (env : ArrEnv)
    (item : MediaItem) (idxs : List (String × Int)) (calls : List ApiCall)
    (rel : Option (List Release)) :
    ∀ c ∈ (search_with_releases ctype env item idxs calls rel).2,
      c ∈ calls ∨ c ∈ (fallback_search ctype env item).2
        ∨ c = ApiCall.postRelease := by
  intro c hc
  simp only [search_with_releases] at hc
  split at hc
  · exact Or.inl hc
  · split_ifs at hc with h1 h2
    · rw [List.mem_append] at hc
      rcases hc with hc | hc
      · exact Or.inl hc
      · exact Or.inr (Or.inl hc)
    · rw [List.mem_append] at hc
      rcases hc with hc | hc
      · exact Or.inl hc
      · exact Or.inr (Or.inl hc)
    · split at hc
      · rw [List.mem_append] at hc
        rcases hc with hc | hc
        · exact Or.inl hc
        · exact Or.inr (Or.inl hc)
      · rw [List.mem_append, List.mem_singleton] at hc
        rcases hc with hc | hc
        · exact Or.inl hc
        · exact Or.inr (Or.inr hc)

theorem search_for_replacement_calls (ctype : ArrType) (env : ArrEnv)
    (item : MediaItem) :
    ∀ c ∈ (search_for_replacement ctype env item).2,
      keyDiscipline ctype env item c := by
  intro c hc
  unfold search_for_replacement at hc
  split at hc
  · rw [List.mem_singleton] at hc
    subst hc
    trivial
  · rename_i idxs hidx
    split at hc
    · rcases search_with_releases_calls _ _ _ _ _ _ c hc with h | h | h
      · rcases List.mem_cons.mp h with rfl | h
        · trivial
        · rw [List.mem_singleton] at h
          subst h
          exact ⟨rfl, rfl⟩
      · exact fallback_search_calls _ _ _ c h
      · subst h
        trivial
    · split_ifs at hc with htr
      · rcases search_with_releases_calls _ _ _ _ _ _ c hc with h | h | h
        · rcases List.mem_cons.mp h with rfl | h
          · trivial
          · rw [List.append_eq, List.mem_append] at h
            rcases h with h | h
            · exact resolve_episode_id_calls env item _ c h
            · rw [List.mem_singleton] at h
              subst h
              exact ⟨rfl, resolve_key_ok env item htr⟩
        · exact fallback_search_calls _ _ _ c h
        · subst h
          trivial
      · rcases List.mem_cons.mp hc with rfl | h
        · trivial
        · exact resolve_episode_id_calls env item _ c h

/-- Claim C1: along the replacement path every remote call obeys the key
discipline — the deletion call carries exactly the item's `file_id`, a
movie search carries exactly `item.id`, an episode search carries the
explicit `episode_id` or the id recovered by series/season/episode
lookup, and no call mixes these key spaces. -/
theorem replace_file_key_discipline (ctype : ArrType) (env : ArrEnv)
    (bl : Bool) (item : MediaItem) :
    ∀ c ∈ (replace_file ctype env bl item).2,
      keyDiscipline ctype env item c := by
  intro c hc
  simp only [replace_file, delete_file] at hc
  split_ifs at hc with h1 h2 h3
  · rw [List.mem_append, List.mem_append] at hc
    rcases hc with (hc | hc) | hc
    · rw [List.mem_singleton] at hc
      subst hc
      exact truthyInt_some h1
    · rw [List.mem_singleton] at hc
      subst hc
      trivial
    · exact search_for_replacement_calls ctype env item c hc
  · rw [List.mem_append, List.mem_append] at hc
    rcases hc with (hc | hc) | hc
    · rw [List.mem_singleton] at hc
      subst hc
      exact truthyInt_some h1
    · simp at hc
    · exact search_for_replacement_calls ctype env item c hc
  · rw [List.mem_singleton] at hc
    subst hc
    exact truthyInt_some h1
  · simp at hc

/-- Witness for C1: a concrete deletion call on the replacement path. -/
theorem replace_file_key_discipline_witness :
    keyDiscipline ArrType.radarr w1Env w1Item (ApiCall.deleteFile 7) :=
  replace_file_key_discipline ArrType.radarr w1Env false w1Item
    (ApiCall.deleteFile 7) (by decide)

theorem interleave_filter_keep {α : Type} (p : α → Bool) :
    ∀ (n : Nat) (mv tv : List α), mv.length + tv.length ≤ n →
      (∀ x ∈ mv, p x = true) → (∀ y ∈ tv, p y = false) →
      (interleave mv tv).filter p = mv := by
  intro n
  induction n with
  | zero =>
    intro mv tv hlen hm ht
    have hmv : mv = [] := List.eq_nil_of_length_eq_zero (by omega)
    have htv : tv = [] := List.eq_nil_of_length_eq_zero (by omega)
    subst hmv
    subst htv
    rw [interleave]
    simp
  | succ n ih =>
    intro mv tv hlen hm ht
    rw [interleave]
    by_cases hz : mv.length = 0 ∧ tv.length = 0
    · rw [dif_pos hz]
      have hmv : mv = [] := List.eq_nil_of_length_eq_zero hz.1
      simp [hmv]
    · rw [dif_neg hz]
      rw [List.filter_append, List.filter_append]
      have h1 : (mv.take 1).filter p = mv.take 1 :=
        List.filter_eq_self.mpr (fun a ha => hm a (List.mem_of_mem_take ha))
      have h2 : (tv.take 10).filter p = [] := by
        rw [List.filter_eq_nil_iff]
        intro a ha
        simp [ht a (List.mem_of_mem_take ha)]
      have h3 : (interleave (mv.drop 1) (tv.drop 10)).filter p
          = mv.drop 1 := by
        refine ih _ _ ?_ (fun a ha => hm a (List.mem_of_mem_drop ha))
          (fun a ha => ht a (List.mem_of_mem_drop ha))
        simp only [List.length_drop]
        omega
      rw [h1, h2, h3, List.append_nil, List.take_append_drop]

theorem interleave_filter_keep_right {α : Type} (p : α → Bool) :
    ∀ (n : Nat) (mv tv : List α), mv.length + tv.length ≤ n →
      (∀ x ∈ mv, p x = false) → (∀ y ∈ tv, p y = true) →
      (interleave mv tv).filter p = tv := by
  intro n
  induction n with
  | zero =>
    intro mv tv hlen hm ht
    have hmv : mv = [] := List.eq_nil_of_length_eq_zero (by omega)
    have htv : tv = [] := List.eq_nil_of_length_eq_zero (by omega)
    subst hmv
    subst htv
    rw [interleave]
    simp
  | succ n ih =>
    intro mv tv hlen hm ht
    rw [interleave]
    by_cases hz : mv.length = 0 ∧ tv.length = 0
    · rw [dif_pos hz]
      have htv : tv = [] := List.eq_nil_of_length_eq_zero hz.2
      simp [htv]
    · rw [dif_neg hz]
      rw [List.filter_append, List.filter_append]
      have h1 : (mv.take 1).filter p = [] := by
        rw [List.filter_eq_nil_iff]
        intro a ha
        simp [hm a (List.mem_of_mem_take ha)]
      have h2 : (tv.take 10).filter p = tv.take 10 :=
        List.filter_eq_self.mpr (fun a ha => ht a (List.mem_of_mem_take ha))
      have h3 : (interleave (mv.drop 1) (tv.drop 10)).filter p
          = tv.drop 10 := by
        refine ih _ _ ?_ (fun a ha => hm a (List.mem_of_mem_drop ha))
          (fun a ha => ht a (List.mem_of_mem_drop ha))
        simp only [List.length_drop]
        omega
      rw [h1, h2, h3, List.nil_append, List.take_append_drop]

theorem interleave_filter_left {α : Type} (p : α → Bool) (mv tv : List α)
    (hm : ∀ x ∈ mv, p x = true) (ht : ∀ y ∈ tv, p y = false) :
    (interleave mv tv).filter p = mv :=
  interleave_filter_keep p (mv.length + tv.length) mv tv le_rfl hm ht

theorem interleave_filter_right {α : Type} (p : α → Bool) (mv tv : List α)
    (hm : ∀ x ∈ mv, p x = false) (ht : ∀ y ∈ tv, p y = true) :
    (interleave mv tv).filter p = tv :=
  interleave_filter_keep_right p (mv.length + tv.length) mv tv le_rfl hm ht

theorem sonarr_not_radarr {it : MediaItem}
    (h : (it.arr_type == some ArrType.sonarr) = true) :
    (it.arr_type == some ArrType.radarr) = false := by
  rw [beq_iff_eq] at h
  rw [h]
  decide

theorem radarr_not_sonarr {it : MediaItem}
    (h : (it.arr_type == some ArrType.radarr) = true) :
    (it.arr_type == some ArrType.sonarr) = false := by
  rw [beq_iff_eq] at h
  rw [h]
  decide

/-- Claim C6: a TV-scoped refresh leaves the queued movie items exactly
in place (its Sonarr side being the freshly fetched, filtered, reordered
TV items), and symmetrically a movies-scoped refresh preserves the queued
TV items — a partial refresh never empties the other media type's queue.
The reordering functions stand for the watch-count sort or random
shuffle, so they are assumed to permute their input. -/
theorem partial_refresh_preserves_other_type (st : ScannerState)
    (env : RefreshEnv)
    (hpm : ∀ l, (env.orderMovies l).Perm l)
    (hpt : ∀ l, (env.orderTv l).Perm l) :
    ((refresh_library st "tv" env).2.scanQueue.filter
        (fun it => it.arr_type == some ArrType.radarr)
      = st.scanQueue.filter (fun it => it.arr_type == some ArrType.radarr)) ∧
    ((refresh_library st "tv" env).2.scanQueue.filter
        (fun it => it.arr_type == some ArrType.sonarr)
      = env.orderTv ((refresh_new_items st "tv" env).filter
          (fun it => it.arr_type == some ArrType.sonarr))) ∧
    ((refresh_library st "movies" env).2.scanQueue.filter
        (fun it => it.arr_type == some ArrType.sonarr)
      = st.scanQueue.filter (fun it => it.arr_type == some ArrType.sonarr)) ∧
    ((refresh_library st "movies" env).2.scanQueue.filter
        (fun it => it.arr_type == some ArrType.radarr)
      = env.orderMovies ((refresh_new_items st "movies" env).filter
          (fun it => it.arr_type == some ArrType.radarr))) := by
  have hqtv : (refresh_library st "tv" env).2.scanQueue
      = interleave
          (st.scanQueue.filter (fun it => it.arr_type == some ArrType.radarr))
          (env.orderTv ((refresh_new_items st "tv" env).filter
            (fun it => it.arr_type == some ArrType.sonarr))) := by
    simp [refresh_library]
  have hqmv : (refresh_library st "movies" env).2.scanQueue
      = interleave
          (env.orderMovies ((refresh_new_items st "movies" env).filter
            (fun it => it.arr_type == some ArrType.radarr)))
          (st.scanQueue.filter
            (fun it => it.arr_type == some ArrType.sonarr)) := by
    simp [refresh_library]
  refine ⟨?_, ?_, ?_, ?_⟩
  · rw [hqtv]
    exact interleave_filter_left _ _ _
      (fun x hx => (List.mem_filter.mp hx).2)
      (fun y hy =>
        sonarr_not_radarr (List.mem_filter.mp ((hpt _).mem_iff.mp hy)).2)
  · rw [hqtv]
    exact interleave_filter_right _ _ _
      (fun x hx => radarr_not_sonarr (List.mem_filter.mp hx).2)
      (fun y hy => (List.mem_filter.mp ((hpt _).mem_iff.mp hy)).2)
  · rw [hqmv]
    exact interleave_filter_right _ _ _
      (fun x hx =>
        radarr_not_sonarr (List.mem_filter.mp ((hpm _).mem_iff.mp hx)).2)
      (fun y hy => (List.mem_filter.mp hy).2)
  · rw [hqmv]
    exact interleave_filter_left _ _ _
      (fun x hx => (List.mem_filter.mp ((hpm _).mem_iff.mp hx)).2)
      (fun y hy => sonarr_not_radarr (List.mem_filter.mp hy).2)

/-- Witness for C6: a TV refresh fetching one new episode keeps the
queued movie, and a movies refresh keeps the queued episode. -/
theorem partial_refresh_preserves_other_type_witness :
    ((refresh_library w6St "tv" w6Env).2.scanQueue.filter
        (fun it => it.arr_type == some ArrType.radarr)
      = w6St.scanQueue.filter
          (fun it => it.arr_type == some ArrType.radarr)) ∧
    ((refresh_library w6St "tv" w6Env).2.scanQueue.filter
        (fun it => it.arr_type == some ArrType.sonarr)
      = w6Env.orderTv ((refresh_new_items w6St "tv" w6Env).filter
          (fun it => it.arr_type == some ArrType.sonarr))) ∧
    ((refresh_library w6St "movies" w6Env).2.scanQueue.filter
        (fun it => it.arr_type == some ArrType.sonarr)
      = w6St.scanQueue.filter
          (fun it => it.arr_type == some ArrType.sonarr)) ∧
    ((refresh_library w6St "movies" w6Env).2.scanQueue.filter
        (fun it => it.arr_type == some ArrType.radarr)
      = w6Env.orderMovies ((refresh_new_items w6St "movies" w6Env).filter
          (fun it => it.arr_type == some ArrType.radarr))) :=
  partial_refresh_preserves_other_type w6St w6Env
    (fun l => List.Perm.refl l) (fun l => List.Perm.refl l)

theorem c5_fmt : fmt1 (2 : ℚ) = "2.0" := by
  have h : Int.floor ((2 : ℚ) * 10 + 1 / 2) = 20 := by norm_num
  unfold fmt1
  rw [h]
  rfl

theorem c5_meta : validate_meta "/m/c.mkv" c5Config c5Env
    = MetaOutcome.proceed
      { file_path := "/m/c.mkv", valid := false,
        errors := ["Duration 2.0h exceeds max 1h"], warnings := [],
        duration_seconds := some 7200, video_bitrate_kbps := none,
        audio_bitrate_kbps := none, width := none, height := none,
        codec := none, timed_out := false } := by
  have hgt : ((7200 : ℚ) > (1 : ℚ) * 3600) := by norm_num
  have hlt : ¬ ((7200 : ℚ) < 60) := by norm_num
  norm_num [validate_meta, run_ffprobe, c5Config, c5Env, hgt, hlt]
  rw [c5_fmt]
  rfl

theorem c5_eval : validate_file "/m/c.mkv" c5Config c5Env
    = ({ file_path := "/m/c.mkv", valid := false,
         errors := ["Duration 2.0h exceeds max 1h",
           "Decode error (start): boom"],
         warnings := [], duration_seconds := some 7200,
         video_bitrate_kbps := none, audio_bitrate_kbps := none,
         width := none, height := none, codec := none,
         timed_out := false }, [DecodeAttempt.atStart]) := by
  have hig : is_ignorable_ffmpeg_warning "boom" = false := by decide
  simp only [validate_file, c5_meta]
  norm_num [run_ffmpeg_decode_test, c5Config, c5Env, hig, run_ffprobe,
    deep_scan_stage, deep_scan_start, deep_scan_middle, deep_scan_end,
    full_decode_stage, bne_iff_ne]
  decide

/-- Counterexample to claim C5 as stated: with a failing start sample in
full deep-scan mode, the result's error list also retains the earlier
duration-sanity error, so it is not exactly the start-sample error(s). -/
theorem deep_scan_errors_not_only_start :
    (run_ffmpeg_decode_test (c5Env.decode (some 0)
        c5Config.sample_duration_seconds)).1 = false ∧
    c5Config.deep_scan_mode = "full" ∧
    (validate_file "/m/c.mkv" c5Config c5Env).1.errors
      = ["Duration 2.0h exceeds max 1h", "Decode error (start): boom"] ∧
    ¬ ((validate_file "/m/c.mkv" c5Config c5Env).1.errors
        = ["Decode error (start): boom"]) := by
  refine ⟨by decide, rfl, ?_, ?_⟩
  · rw [c5_eval]
  · rw [c5_eval]
    decide

/-- Claim C5 (amended): in full deep-scan mode, when the start-of-file
decode sample runs and fails, the middle and end samples (and the full
decode) are not attempted — the attempt list is exactly the start test —
and the error list is the earlier metadata-stage errors followed by
exactly the start-sample error(s); when the earlier stages produced no
errors it is exactly the start-sample error(s). -/
theorem deep_scan_fail_fast (fp : String) (cfg : ValidationConfig)
    (env : FileEnv)
    (hmode : cfg.deep_scan_mode = "full")
    (hrun : DecodeAttempt.atStart ∈ (validate_file fp cfg env).2)
    (hstart : (run_ffmpeg_decode_test
        (env.decode (some 0) cfg.sample_duration_seconds)).1 = false) :
    (validate_file fp cfg env).2 = [DecodeAttempt.atStart] ∧
    (validate_file fp cfg env).1.errors =
      (validate_file fp
          { cfg with
              deep_scan_enabled := false,
              full_decode_enabled := false } env).1.errors ++
        (run_ffmpeg_decode_test
          (env.decode (some 0) cfg.sample_duration_seconds)).2.1.map
          (fun e => "Decode error (start): " ++ e) := by
  have hmeta : validate_meta fp
      { cfg with
          deep_scan_enabled := false,
          full_decode_enabled := false } env
      = validate_meta fp cfg env := rfl
  cases hm : validate_meta fp cfg env with
  | early r =>
    simp only [validate_file, hm] at hrun
    simp at hrun
  | proceed r4 =>
    by_cases hdeep : (cfg.deep_scan_enabled &&
        (match (run_ffprobe env.probeExec).duration with
         | some d => d != 0
         | none => false)) = true
    · have hstartEq : deep_scan_start cfg env r4
          = { r4 with
              valid := false,
              timed_out := r4.timed_out ||
                (run_ffmpeg_decode_test
                  (env.decode (some 0) cfg.sample_duration_seconds)).2.2,
              errors := r4.errors ++
                (run_ffmpeg_decode_test
                  (env.decode (some 0) cfg.sample_duration_seconds)).2.1.map
                  (fun e => "Decode error (start): " ++ e) } := by
        simp [deep_scan_start, hstart]
      have hvalid : (deep_scan_start cfg env r4).valid = false := by
        rw [hstartEq]
      have hmid : deep_scan_middle cfg env
          ((run_ffprobe env.probeExec).duration.getD 0)
          (deep_scan_start cfg env r4)
          = (deep_scan_start cfg env r4, []) := by
        simp [deep_scan_middle, hvalid]
      have hend : deep_scan_end cfg env
          ((run_ffprobe env.probeExec).duration.getD 0)
          (deep_scan_start cfg env r4)
          = (deep_scan_start cfg env r4, []) := by
        simp [deep_scan_end, hvalid]
      have hds : deep_scan_stage cfg env
          (run_ffprobe env.probeExec).duration r4
          = (deep_scan_start cfg env r4, [DecodeAttempt.atStart]) := by
        simp only [deep_scan_stage, hdeep, if_true, hmode, if_pos]
        rw [hmid]
        simp only []
        rw [hend]
        simp
      have hfd : full_decode_stage cfg env
          (deep_scan_stage cfg env (run_ffprobe env.probeExec).duration r4)
          = (deep_scan_start cfg env r4, [DecodeAttempt.atStart]) := by
        rw [hds]
        simp [full_decode_stage, hvalid]
      have hnodeep : validate_file fp
          { cfg with
              deep_scan_enabled := false,
              full_decode_enabled := false } env = (r4, []) := by
        simp only [validate_file, hmeta, hm]
        simp [deep_scan_stage, full_decode_stage]
      have h2 : validate_file fp cfg env
          = (deep_scan_start cfg env r4, [DecodeAttempt.atStart]) := by
        simp only [validate_file, hm]
        exact hfd
      constructor
      · rw [h2]
      · rw [h2, hnodeep, hstartEq]
    · exfalso
      have hds0 : deep_scan_stage cfg env
          (run_ffprobe env.probeExec).duration r4 = (r4, []) := by
        simp only [deep_scan_stage]
        rw [if_neg hdeep]
      simp only [validate_file, hm, hds0, full_decode_stage] at hrun
      split_ifs at hrun <;> simp at hrun

/-- Witness for C5 (amended) at the counterexample configuration. -/
theorem deep_scan_fail_fast_witness :
    (validate_file "/m/c.mkv" c5Config c5Env).2 = [DecodeAttempt.atStart] ∧
    (validate_file "/m/c.mkv" c5Config c5Env).1.errors =
      (validate_file "/m/c.mkv"
          { c5Config with
              deep_scan_enabled := false,
              full_decode_enabled := false } c5Env).1.errors ++
        (run_ffmpeg_decode_test
          (c5Env.decode (some 0) c5Config.sample_duration_seconds)).2.1.map
          (fun e => "Decode error (start): " ++ e) :=
  deep_scan_fail_fast "/m/c.mkv" c5Config c5Env rfl
    (by rw [c5_eval]; exact List.mem_singleton.mpr rfl) (by decide)

end MediaJanitor
